import Mathlib

/-!
Verification of the `Genre` model declared in `src/models.py`.

The module declares a single SQLAlchemy mapped class:

```
class Genre(Base):
    __tablename__ = "genre"
    id = Column(Integer(), primary_key=True)
    name = Column(Text(), nullable=False, unique=True)
    created_at = Column(DateTime, default = datetime.now())
```

We embed the schema declaration itself (table name, column names, types,
constraints and defaults) and the semantics of a row INSERT as constrained
by that declaration when executed by a standard SQL storage engine: the
NOT NULL and UNIQUE constraints on `name` are enforced at insert time,
`id` is an engine-generated surrogate key, and `created_at` falls back to
the column default when the INSERT omits it.

Timestamps are modelled as natural-number clock readings.  The key point
of the source is that `datetime.now()` in the `created_at` line is
*called* while the class body executes at module load, so the column's
default is a fixed value captured at load time, not a callable evaluated
per insert; the embedding makes module load explicit by parameterising
the schema over the clock reading `loadTime` at load.
-/

/-- SQL column types that appear in `models.py`: `Integer()`, `Text()`,
`DateTime`. -/
inductive ColType where
  | integer
  | text
  | dateTime
  deriving DecidableEq, Repr

/-- The default attached to a column, as it exists after module load.
`fixedValue t` is a pre-evaluated timestamp (what `default = datetime.now()`
produces, since the call happens at class-definition time); `perRowCallable f`
would be a callable evaluated at each insert with the insertion-time clock
(what `default = datetime.now` without parentheses would produce); `noDefault`
is a column with no default. -/
inductive ColDefault where
  | noDefault
  | fixedValue (t : Nat)
  | perRowCallable (f : Nat → Nat)

/-- One column declaration: name, SQL type, and the declared constraints. -/
structure ColumnDecl where
  name : String
  type : ColType
  primaryKey : Bool
  nullable : Bool
  unique : Bool
  default : ColDefault

/-- Column `id = Column(Integer(), primary_key=True)`.  SQLAlchemy marks
primary-key columns NOT NULL implicitly. -/
def idColumn : ColumnDecl :=
  { name := "id", type := ColType.integer, primaryKey := true,
    nullable := false, unique := false, default := ColDefault.noDefault }

/-- Column `name = Column(Text(), nullable=False, unique=True)`: an
unbounded text column, NOT NULL and UNIQUE, with no length bound. -/
def nameColumn : ColumnDecl :=
  { name := "name", type := ColType.text, primaryKey := false,
    nullable := false, unique := true, default := ColDefault.noDefault }

/-- Column `created_at = Column(DateTime, default = datetime.now())`.
The call `datetime.now()` is evaluated once, while the class body runs at
module load; `loadTime` is the clock reading at that moment, and the
column's default is that fixed value.  No `nullable=False` is passed, so
the column keeps SQLAlchemy's default of nullable. -/
def createdAtColumn (loadTime : Nat) : ColumnDecl :=
  { name := "created_at", type := ColType.dateTime, primaryKey := false,
    nullable := true, unique := false, default := ColDefault.fixedValue loadTime }

/-- A mapped table declaration: `__tablename__` plus the column list. -/
structure TableDecl where
  tablename : String
  columns : List ColumnDecl

/-- The `Genre` class of `models.py`, as mapped to a table: name `"genre"`,
columns `id`, `name`, `created_at`, in declaration order. -/
def genreTable (loadTime : Nat) : TableDecl :=
  { tablename := "genre",
    columns := [idColumn, nameColumn, createdAtColumn loadTime] }

/-- All mapped tables declared by `models.py` when loaded at clock
`loadTime`: the module declares exactly the one class `Genre`. -/
def moduleTables (loadTime : Nat) : List TableDecl :=
  [genreTable loadTime]

/-- A stored row of the `genre` table.  `id` is the engine-generated
integer key (always a concrete integer, never NULL); `name` and
`created_at` may in principle be NULL, modelled with `Option`. -/
structure GenreRow where
  id : Int
  name : Option String
  created_at : Option Nat
  deriving DecidableEq, Repr

/-- The values an INSERT supplies for a `genre` row.  For `created_at`,
`Option.none` means the INSERT omits the column (the default applies) and
`some v` supplies `v` explicitly, where `v = Option.none` is an explicit
NULL. -/
structure GenreInsert where
  name : Option String
  created_at : Option (Option Nat)
  deriving DecidableEq, Repr

/-- A constraint violation reported by the storage engine, naming the
offending column. -/
inductive InsertError where
  | notNullViolation (col : String)
  | uniqueViolation (col : String)
  deriving DecidableEq, Repr

/-- The value a column default contributes when an INSERT omits the
column, given the insertion-time clock `now`.  Only a `perRowCallable`
default ever reads `now`. -/
def resolveDefault : ColDefault → Nat → Option Nat
  | ColDefault.noDefault, _ => Option.none
  | ColDefault.fixedValue t, _ => some t
  | ColDefault.perRowCallable f, now => some (f now)

/-- Greatest `id` present in the table (`0` for an empty table). -/
def maxId (rows : List GenreRow) : Int :=
  rows.foldr (fun r m => max r.id m) 0

/-- The surrogate primary key the storage engine generates for the next
row of `genre` (the `primary_key=True` declaration on the `Integer`
column `id`): one more than the greatest key in use. -/
def nextId (rows : List GenreRow) : Int :=
  maxId rows + 1

/-- One INSERT into the `genre` table at insertion-time clock `now`,
against a module loaded at clock `loadTime`, enforcing exactly the
constraints declared in `models.py`: `name` is NOT NULL and UNIQUE,
`created_at` falls back to the column default when omitted, and `id` is
generated by the engine.  On a constraint violation the INSERT fails and
returns no new state, so the table is left unchanged; on success it
returns the new table state together with the inserted row. -/
def genreInsert (loadTime now : Nat) (rows : List GenreRow) (ins : GenreInsert) :
    Except InsertError (List GenreRow × GenreRow) :=
  match ins.name with
  | Option.none => Except.error (InsertError.notNullViolation "name")
  | some nm =>
    if rows.any (fun r => r.name == some nm) then
      Except.error (InsertError.uniqueViolation "name")
    else
      let createdAt : Option Nat :=
        match ins.created_at with
        | Option.none => resolveDefault (createdAtColumn loadTime).default now
        | some v => v
      let row : GenreRow := { id := nextId rows, name := some nm, created_at := createdAt }
      Except.ok (rows ++ [row], row)

/-- The schema invariant on the `genre` table: every row's `name` is
non-null, and `name` values are unique across rows. -/
def GenreInv (rows : List GenreRow) : Prop :=
  (∀ r ∈ rows, r.name ≠ Option.none) ∧ (rows.map GenreRow.name).Nodup

/-- Every `id` present in the table is at most `maxId`. -/
theorem id_le_maxId {rows : List GenreRow} {r : GenreRow} (h : r ∈ rows) :
    r.id ≤ maxId rows := by
  induction rows with
  | nil => cases h
  | cons a l ih =>
    rcases List.mem_cons.mp h with h | h
    · subst h
      exact le_max_left _ _
    · exact le_trans (ih h) (le_max_right _ _)

/-- An INSERT whose `name` is fresh succeeds, appending a row with the
engine-generated key and the supplied (or defaulted) `created_at`. -/
theorem genreInsert_fresh_ok (loadTime now : Nat) (rows : List GenreRow)
    (nm : String) (c : Option (Option Nat))
    (hfresh : ∀ r ∈ rows, r.name ≠ some nm) :
    genreInsert loadTime now rows ⟨some nm, c⟩ =
      Except.ok (rows ++ [⟨nextId rows, some nm, c.getD (some loadTime)⟩],
        ⟨nextId rows, some nm, c.getD (some loadTime)⟩) := by
  have hany : rows.any (fun r => r.name == some nm) = false := by
    simp only [List.any_eq_false, beq_iff_eq]
    exact hfresh
  unfold genreInsert
  simp only [hany, Bool.false_eq_true, if_false]
  cases c <;> rfl

/-- Anatomy of a successful INSERT: the supplied `name` was non-null and
fresh, the new row carries the generated key, that name, and the supplied
(or defaulted) `created_at`, and the new state is the old state with the
row appended. -/
theorem genreInsert_ok_spec (loadTime now : Nat) (rows : List GenreRow)
    (ins : GenreInsert) (rows' : List GenreRow) (row : GenreRow)
    (h : genreInsert loadTime now rows ins = Except.ok (rows', row)) :
    ∃ nm, ins.name = some nm ∧
      (∀ r ∈ rows, r.name ≠ some nm) ∧
      row.id = nextId rows ∧ row.name = some nm ∧
      row.created_at = ins.created_at.getD (some loadTime) ∧
      rows' = rows ++ [row] := by
  obtain ⟨n, c⟩ := ins
  cases n with
  | none => cases h
  | some nm =>
    refine ⟨nm, rfl, ?_⟩
    by_cases hany : rows.any (fun r => r.name == some nm) = true
    · unfold genreInsert at h
      simp only [hany, if_true] at h
      cases h
    · have hfresh : ∀ r ∈ rows, r.name ≠ some nm := by
        simp only [List.any_eq_false, beq_iff_eq] at hany
        simpa using hany
      rw [genreInsert_fresh_ok loadTime now rows nm c hfresh] at h
      simp only [Except.ok.injEq, Prod.mk.injEq] at h
      obtain ⟨h1, h2⟩ := h
      subst h2
      exact ⟨hfresh, rfl, rfl, rfl, h1.symm⟩

/-- C1: the default of `created_at` is evaluated exactly once, at class
definition time — it is a fixed timestamp captured at module load, not a
per-row callable — and consequently every row inserted in the same
process lifetime (same `loadTime`) that relies on the default gets
`created_at` equal to that single load-time timestamp, whatever the
insertion-time clock reads. -/
theorem created_at_default_captured_at_load (loadTime : Nat) :
    (createdAtColumn loadTime).default = ColDefault.fixedValue loadTime ∧
    (∀ f, (createdAtColumn loadTime).default ≠ ColDefault.perRowCallable f) ∧
    ∀ now rows ins rows' row,
      ins.created_at = Option.none →
      genreInsert loadTime now rows ins = Except.ok (rows', row) →
      row.created_at = some loadTime := by
  refine ⟨rfl, ?_, ?_⟩
  · intro f hf
    exact ColDefault.noConfusion hf
  intro now rows ins rows' row hdef hok
  obtain ⟨nm, _, _, _, _, hca, _⟩ :=
    genreInsert_ok_spec loadTime now rows ins rows' row hok
  rw [hca, hdef]
  rfl

/-- Witness for C1 at `loadTime = 42`: a concrete INSERT at clock 99
omitting `created_at` stores the load-time value 42. -/
theorem created_at_default_captured_at_load_witness :
    (⟨1, some "Jazz", some 42⟩ : GenreRow).created_at = some 42 :=
  (created_at_default_captured_at_load 42).2.2 99 [] ⟨some "Jazz", Option.none⟩
    [⟨1, some "Jazz", some 42⟩] ⟨1, some "Jazz", some 42⟩ rfl rfl

/-- C2: an attempted INSERT whose `name` is null fails with a NOT NULL
constraint violation on `name` (the column is declared `nullable=False`),
and never produces a new table state, so no row is added. -/
theorem insert_null_name_fails (loadTime now : Nat) (rows : List GenreRow)
    (ins : GenreInsert) (h : ins.name = Option.none) :
    genreInsert loadTime now rows ins =
      Except.error (InsertError.notNullViolation "name") ∧
    ∀ rows' row, genreInsert loadTime now rows ins ≠ Except.ok (rows', row) := by
  obtain ⟨n, c⟩ := ins
  cases h
  exact ⟨rfl, fun rows' row hk => by cases hk⟩

/-- Witness for C2: the concrete null-`name` INSERT into the empty table
fails with the NOT NULL violation. -/
theorem insert_null_name_fails_witness :
    genreInsert 0 0 [] ⟨Option.none, Option.none⟩ =
      Except.error (InsertError.notNullViolation "name") :=
  (insert_null_name_fails 0 0 [] ⟨Option.none, Option.none⟩ rfl).1

/-- C3: two INSERTs with the same `name` (fresh in the starting table):
the first succeeds and the second fails with a UNIQUE constraint
violation on `name`, producing no new table state, so the failed INSERT
leaves the table unchanged. -/
theorem insert_duplicate_name_fails (loadTime n1 n2 : Nat) (rows : List GenreRow)
    (nm : String) (c1 c2 : Option (Option Nat))
    (hfresh : ∀ r ∈ rows, r.name ≠ some nm) :
    ∃ rows1 row1,
      genreInsert loadTime n1 rows ⟨some nm, c1⟩ = Except.ok (rows1, row1) ∧
      genreInsert loadTime n2 rows1 ⟨some nm, c2⟩ =
        Except.error (InsertError.uniqueViolation "name") ∧
      ∀ rows2 row2,
        genreInsert loadTime n2 rows1 ⟨some nm, c2⟩ ≠ Except.ok (rows2, row2) := by
  have hany : ((rows ++ [(⟨nextId rows, some nm, c1.getD (some loadTime)⟩ : GenreRow)]).any
      (fun r => r.name == some nm)) = true := by
    refine List.any_eq_true.mpr ⟨⟨nextId rows, some nm, c1.getD (some loadTime)⟩, ?_, ?_⟩
    · simp
    · simp
  have herr : genreInsert loadTime n2
      (rows ++ [(⟨nextId rows, some nm, c1.getD (some loadTime)⟩ : GenreRow)]) ⟨some nm, c2⟩ =
      Except.error (InsertError.uniqueViolation "name") := by
    unfold genreInsert
    simp only [hany, if_true]
  exact ⟨_, _, genreInsert_fresh_ok loadTime n1 rows nm c1 hfresh, herr,
    fun rows2 row2 hk => by rw [herr] at hk; cases hk⟩

/-- Witness for C3: inserting "Jazz" twice into the empty table — the
first INSERT succeeds, the second hits the UNIQUE violation. -/
theorem insert_duplicate_name_fails_witness :
    ∃ rows1 row1,
      genreInsert 5 6 [] ⟨some "Jazz", Option.none⟩ = Except.ok (rows1, row1) ∧
      genreInsert 5 7 rows1 ⟨some "Jazz", Option.none⟩ =
        Except.error (InsertError.uniqueViolation "name") ∧
      ∀ rows2 row2,
        genreInsert 5 7 rows1 ⟨some "Jazz", Option.none⟩ ≠ Except.ok (rows2, row2) :=
  insert_duplicate_name_fails 5 6 7 [] "Jazz" Option.none Option.none
    (by intro r hr; cases hr)

/-- C4: the module maps exactly one table, named "genre", with exactly
three columns — `id` of integer type and the sole primary key, `name` of
text type, `created_at` of DateTime type. -/
theorem module_declares_one_genre_table (loadTime : Nat) :
    (moduleTables loadTime).length = 1 ∧
    moduleTables loadTime = [genreTable loadTime] ∧
    (genreTable loadTime).tablename = "genre" ∧
    (genreTable loadTime).columns.length = 3 ∧
    (genreTable loadTime).columns.map ColumnDecl.name = ["id", "name", "created_at"] ∧
    (genreTable loadTime).columns.map ColumnDecl.type =
      [ColType.integer, ColType.text, ColType.dateTime] ∧
    (genreTable loadTime).columns.map ColumnDecl.primaryKey = [true, false, false] :=
  ⟨rfl, rfl, rfl, rfl, rfl, rfl, rfl⟩

/-- C5: an INSERT with a non-null `name` distinct from every existing
name succeeds, and the inserted row carries that name and an
engine-generated `id` distinct from the `id` of every other row. -/
theorem insert_fresh_name_succeeds_unique_id (loadTime now : Nat)
    (rows : List GenreRow) (nm : String) (c : Option (Option Nat))
    (hfresh : ∀ r ∈ rows, r.name ≠ some nm) :
    ∃ rows' row,
      genreInsert loadTime now rows ⟨some nm, c⟩ = Except.ok (rows', row) ∧
      row.name = some nm ∧
      ∀ r ∈ rows, row.id ≠ r.id := by
  refine ⟨_, _, genreInsert_fresh_ok loadTime now rows nm c hfresh, rfl, ?_⟩
  intro r hr
  have hle : r.id ≤ maxId rows := id_le_maxId hr
  show nextId rows ≠ r.id
  unfold nextId
  omega

/-- Witness for C5: inserting "Jazz" into a concrete one-row table
succeeds with a fresh id. -/
theorem insert_fresh_name_succeeds_unique_id_witness :
    ∃ rows' row,
      genreInsert 3 4 [⟨1, some "Rock", some 3⟩] ⟨some "Jazz", Option.none⟩ =
        Except.ok (rows', row) ∧
      row.name = some "Jazz" ∧
      ∀ r ∈ [(⟨1, some "Rock", some 3⟩ : GenreRow)], row.id ≠ r.id :=
  insert_fresh_name_succeeds_unique_id 3 4 [⟨1, some "Rock", some 3⟩] "Jazz"
    Option.none (by intro r hr; simp at hr; subst hr; simp)

/-- Counterexample to C6: the declared constraints do not reject an
empty-string `name`.  Inserting `name = ""` into the empty table
succeeds — NOT NULL only forbids null, not the empty string. -/
theorem empty_string_name_accepted_cex :
    genreInsert 0 0 [] ⟨some "", Option.none⟩ =
      Except.ok ([⟨1, some "", some 0⟩], ⟨1, some "", some 0⟩) := rfl

/-- C6 amended: the `name` of every row must be present (non-null), and
this is enforced by the NOT NULL constraint — a null `name` is rejected —
but non-emptiness is NOT enforced: an INSERT whose `name` is the empty
string (fresh in the table) satisfies every declared constraint and is
accepted. -/
theorem name_required_but_emptiness_allowed (loadTime now : Nat)
    (rows : List GenreRow) (c : Option (Option Nat))
    (hfresh : ∀ r ∈ rows, r.name ≠ some "") :
    genreInsert loadTime now rows ⟨Option.none, c⟩ =
      Except.error (InsertError.notNullViolation "name") ∧
    ∃ rows' row,
      genreInsert loadTime now rows ⟨some "", c⟩ = Except.ok (rows', row) ∧
      row.name = some "" :=
  ⟨rfl, _, _, genreInsert_fresh_ok loadTime now rows "" c hfresh, rfl⟩

/-- Witness for the amended C6 on the empty table. -/
theorem name_required_but_emptiness_allowed_witness :
    genreInsert 0 0 [] ⟨Option.none, Option.none⟩ =
      Except.error (InsertError.notNullViolation "name") ∧
    ∃ rows' row,
      genreInsert 0 0 [] ⟨some "", Option.none⟩ = Except.ok (rows', row) ∧
      row.name = some "" :=
  name_required_but_emptiness_allowed 0 0 [] Option.none
    (by intro r hr; cases hr)

/-- C7: the schema invariant — every row has a non-null `name`, unique
across rows — is preserved by every INSERT the declared schema permits,
and the new state keeps every existing row exactly as it was (in
particular each previously assigned `id` is unchanged): the only effect
is appending the one new row. -/
theorem genre_invariant_preserved (loadTime now : Nat)
    (rows rows' : List GenreRow) (ins : GenreInsert) (row : GenreRow)
    (hinv : GenreInv rows)
    (hok : genreInsert loadTime now rows ins = Except.ok (rows', row)) :
    GenreInv rows' ∧ rows' = rows ++ [row] := by
  obtain ⟨nm, hnm, hfresh, hid, hname, hca, hrows⟩ :=
    genreInsert_ok_spec loadTime now rows ins rows' row hok
  subst hrows
  refine ⟨⟨?_, ?_⟩, rfl⟩
  · intro r hr
    rcases List.mem_append.mp hr with h | h
    · exact hinv.1 r h
    · have hr' : r = row := by simpa using h
      subst hr'
      rw [hname]
      simp
  · rw [List.map_append]
    refine List.Nodup.append hinv.2 (by simp) ?_
    intro a ha hb
    simp only [List.map_cons, List.map_nil, List.mem_singleton] at hb
    subst hb
    obtain ⟨r, hr, hrn⟩ := List.mem_map.mp ha
    exact hfresh r hr (by rw [hrn, hname])

/-- Witness for C7: a concrete INSERT into a one-row table satisfying
the invariant preserves it. -/
theorem genre_invariant_preserved_witness :
    GenreInv [⟨1, some "Rock", some 3⟩, ⟨2, some "Jazz", some 3⟩] ∧
    [(⟨1, some "Rock", some 3⟩ : GenreRow), ⟨2, some "Jazz", some 3⟩] =
      [⟨1, some "Rock", some 3⟩] ++ [⟨2, some "Jazz", some 3⟩] :=
  genre_invariant_preserved 3 9 [⟨1, some "Rock", some 3⟩]
    [⟨1, some "Rock", some 3⟩, ⟨2, some "Jazz", some 3⟩]
    ⟨some "Jazz", Option.none⟩ ⟨2, some "Jazz", some 3⟩
    ⟨by intro r hr; simp at hr; subst hr; simp, by simp [GenreRow.name]⟩ rfl

/-- C8: the module defines no operation that updates or deletes a row —
the only row-producing operation against the declared schema is the
INSERT — and an INSERT leaves every existing row unchanged, in its
position, with all its fields intact: the new state is exactly the old
state with the one new row appended. -/
theorem insertion_only_frame (loadTime now : Nat)
    (rows rows' : List GenreRow) (ins : GenreInsert) (row : GenreRow)
    (hok : genreInsert loadTime now rows ins = Except.ok (rows', row)) :
    rows' = rows ++ [row] ∧
    ∀ i, i < rows.length → rows'[i]? = rows[i]? := by
  obtain ⟨nm, _, _, _, _, _, hrows⟩ :=
    genreInsert_ok_spec loadTime now rows ins rows' row hok
  subst hrows
  refine ⟨rfl, fun i hi => ?_⟩
  rw [List.getElem?_append, if_pos hi]

/-- Witness for C8: the concrete INSERT of "Jazz" after "Rock" leaves
the "Rock" row in place. -/
theorem insertion_only_frame_witness :
    [(⟨1, some "Rock", some 3⟩ : GenreRow), ⟨2, some "Jazz", some 3⟩] =
      [⟨1, some "Rock", some 3⟩] ++ [⟨2, some "Jazz", some 3⟩] ∧
    ∀ i, i < [(⟨1, some "Rock", some 3⟩ : GenreRow)].length →
      [(⟨1, some "Rock", some 3⟩ : GenreRow), ⟨2, some "Jazz", some 3⟩][i]? =
        [(⟨1, some "Rock", some 3⟩ : GenreRow)][i]? :=
  insertion_only_frame 3 9 [⟨1, some "Rock", some 3⟩]
    [⟨1, some "Rock", some 3⟩, ⟨2, some "Jazz", some 3⟩]
    ⟨some "Jazz", Option.none⟩ ⟨2, some "Jazz", some 3⟩ rfl

/-- C9: `created_at` carries no NOT NULL constraint — only a default —
so an INSERT that explicitly supplies NULL for `created_at` is accepted
by the declared schema and the stored row's `created_at` is null; the
load-time default applies only when the column is omitted. -/
theorem created_at_explicit_null_accepted (loadTime now : Nat)
    (rows : List GenreRow) (nm : String)
    (hfresh : ∀ r ∈ rows, r.name ≠ some nm) :
    (createdAtColumn loadTime).nullable = true ∧
    ∃ rows' row,
      genreInsert loadTime now rows ⟨some nm, some Option.none⟩ =
        Except.ok (rows', row) ∧
      row.created_at = Option.none :=
  ⟨rfl, _, _, genreInsert_fresh_ok loadTime now rows nm (some Option.none) hfresh,
    rfl⟩

/-- Witness for C9: inserting "Jazz" with an explicit NULL `created_at`
into the empty table stores a null timestamp. -/
theorem created_at_explicit_null_accepted_witness :
    (createdAtColumn 7).nullable = true ∧
    ∃ rows' row,
      genreInsert 7 8 [] ⟨some "Jazz", some Option.none⟩ =
        Except.ok (rows', row) ∧
      row.created_at = Option.none :=
  created_at_explicit_null_accepted 7 8 [] "Jazz" (by intro r hr; cases hr)

/-- C10: the `name` column is of unbounded Text type with no length
constraint, so an INSERT with any string whatsoever as its non-null,
fresh `name` — of any length, the empty string included — satisfies
every declared constraint and is accepted. -/
theorem name_text_unbounded_length (loadTime now : Nat)
    (rows : List GenreRow) (s : String) (c : Option (Option Nat))
    (hfresh : ∀ r ∈ rows, r.name ≠ some s) :
    nameColumn.type = ColType.text ∧
    ∃ rows' row,
      genreInsert loadTime now rows ⟨some s, c⟩ = Except.ok (rows', row) ∧
      row.name = some s :=
  ⟨rfl, _, _, genreInsert_fresh_ok loadTime now rows s c hfresh, rfl⟩

/-- Witness for C10 at length 0: the empty-string `name` is accepted
into a table already holding a row. -/
theorem name_text_unbounded_length_witness :
    nameColumn.type = ColType.text ∧
    ∃ rows' row,
      genreInsert 2 3 [⟨1, some "Rock", some 2⟩] ⟨some "", Option.none⟩ =
        Except.ok (rows', row) ∧
      row.name = some "" :=
  name_text_unbounded_length 2 3 [⟨1, some "Rock", some 2⟩] "" Option.none
    (by intro r hr; simp at hr; subst hr; simp)
